import Mathlib

/-!
Verification of the Rasa Core HTTP server (`rasa_core/server.py`) against its
natural-language specification.

The file shallowly embeds the request handlers of `RasaCoreServer` together
with the parts of the conversation-tracker core they invoke.  The handler
bodies (`convert_obj_2_tracker_events`, `append_events`, `update_tracker`,
`retrieve_tracker`, `parse`) are translated from the source file; the Event
Model, Tracker and Tracker Store live outside the examined source tree and are
modelled from the specification, as marked on each definition.

Python exceptions are modelled with `Except`; each handler additionally
returns a trace of the abstract operations it performed, in the order the
source performs them, so that ordering properties of the pipeline can be
stated and proved.
-/

/-- A JSON-like wire value.  The payloads the claims exercise only use
scalar parameter values, so nested arrays and objects are not modelled. -/
inductive JValue where
  | null : JValue
  | str : String → JValue
  | num : Int → JValue
  | boolean : Bool → JValue
deriving DecidableEq, Repr

/-- A deserialized JSON object: an association list from keys to values,
modelling a Python dict (keys are unique in well-formed inputs). -/
abbrev Mapping := List (String × JValue)

/-- Python `d.get(k)`: the value stored under `k`, or `none` when absent. -/
def assocGet {β : Type} : List (String × β) → String → Option β
  | [], _ => none
  | (k', v) :: rest, k => if k' = k then some v else assocGet rest k

/-- Python `del d[k]`: remove the binding for `k`. -/
def assocDel {β : Type} : List (String × β) → String → List (String × β)
  | [], _ => []
  | (k', v) :: rest, k =>
    if k' = k then assocDel rest k else (k', v) :: assocDel rest k

/-- Lookup in an event mapping, as `e.get("event")` does in the source. -/
def mget (m : Mapping) (k : String) : Option JValue := assocGet m k

/-- Key deletion in an event mapping, as `del e["event"]` does. -/
def mdel (m : Mapping) (k : String) : Mapping := assocDel m k

/-- Modelled from the spec: the `Domain` descriptor (external, read-only;
`rasa_core.domain` is not in the examined sources).  It lists the valid slot
names and action names and is only consulted for validation. -/
structure Domain where
  slots : List String
  actions : List String
deriving DecidableEq, Repr

/-- Modelled from the spec: the closed set of event kinds of the Event Model
(`rasa_core.events` is not in the examined sources): `SlotSet{name, value}`,
`ActionExecuted{action_name}`, `UserUttered{text, parsed_data}` and
`Restarted{}`.  The optional timestamp the spec mentions is carried by no
claim and is omitted. -/
inductive Event where
  | slotSet (name : String) (value : JValue)
  | actionExecuted (action_name : String)
  | userUttered (text : String) (parse_data : JValue)
  | restarted
deriving DecidableEq, Repr

/-- The error taxonomy of the spec (section 7).  `jsonError` stands for a
deserialization failure raised by `json.loads`. -/
inductive CoreError where
  | unknownEventKind (kind : JValue)
  | invalidEventParams (kind : String)
  | jsonError
  | handlingError (msg : String)
deriving DecidableEq, Repr

/-- Modelled from the spec: `Event.from_parameters` of the Event Model
(`rasa_core.events` is not in the examined sources).  `construct(kind,
params, domain)` fails with `UnknownEventKind` if the kind tag is not one of
the statically known kinds, and with `InvalidEventParams` if required
parameters are missing or fail domain validation.  The source passes the raw
value of the `"event"` key as the kind, so a non-string tag is also an
unknown kind. -/
def Event.from_parameters (etype : JValue) (params : Mapping) (domain : Domain) :
    Except CoreError Event :=
  match etype with
  | .str s =>
    if s = "set_slot" then
      match mget params "name", mget params "value" with
      | some (.str name), some value =>
        if name ∈ domain.slots then .ok (.slotSet name value)
        else .error (.invalidEventParams s)
      | _, _ => .error (.invalidEventParams s)
    else if s = "action_executed" then
      match mget params "action_name" with
      | some (.str a) =>
        if a ∈ domain.actions then .ok (.actionExecuted a)
        else .error (.invalidEventParams s)
      | _ => .error (.invalidEventParams s)
    else if s = "user_uttered" then
      match mget params "text" with
      | some (.str txt) =>
        .ok (.userUttered txt ((mget params "parse_data").getD .null))
      | _ => .error (.invalidEventParams s)
    else if s = "restarted" then .ok .restarted
    else .error (.unknownEventKind etype)
  | _ => .error (.unknownEventKind etype)

/-- Whether a wire value is one of the statically known event kind tags. -/
def isKnownKind (v : JValue) : Bool :=
  match v with
  | .str s =>
    s = "set_slot" || s = "action_executed" || s = "user_uttered" ||
      s = "restarted"
  | _ => false

/-- Modelled from the spec: the derived projection of a tracker — latest
slot values, latest executed action, latest user input and dialogue turn
count (the Tracker class is not in the examined sources). -/
structure DialogueState where
  slots : List (String × JValue)
  latest_action : Option String
  latest_message : Option (String × JValue)
  turn_count : Nat
deriving DecidableEq, Repr

/-- The empty initial projection. -/
def DialogueState.empty : DialogueState := ⟨[], none, none, 0⟩

/-- Overwrite one slot value, last-write-wins per slot. -/
def slotPut (slots : List (String × JValue)) (name : String) (value : JValue) :
    List (String × JValue) :=
  (name, value) :: assocDel slots name

/-- Modelled from the spec: the per-kind `apply` rule of the Event Model.
`SlotSet` overwrites the named slot; `ActionExecuted` sets the latest action
and increments the turn count; `UserUttered` records the latest user input;
`Restarted` resets the derived state to empty. -/
def DialogueState.applyEvent (s : DialogueState) (e : Event) : DialogueState :=
  match e with
  | .slotSet name value => { s with slots := slotPut s.slots name value }
  | .actionExecuted a =>
    { s with latest_action := some a, turn_count := s.turn_count + 1 }
  | .userUttered text pd => { s with latest_message := some (text, pd) }
  | .restarted => DialogueState.empty

/-- Modelled from the spec: a Tracker is the conversation id together with
its ordered, append-only event log; the current state is always exactly the
fold of the log (the Tracker class is not in the examined sources). -/
structure Tracker where
  sender_id : String
  events : List Event
deriving DecidableEq, Repr

/-- A new tracker: empty event log. -/
def Tracker.new (cid : String) : Tracker := ⟨cid, []⟩

/-- `tracker.update(event)`: append one event to the log. -/
def Tracker.update (t : Tracker) (e : Event) : Tracker :=
  { t with events := t.events ++ [e] }

/-- The snapshot wire format produced by `current_state`: sender id, slot
values, latest executed action, turn count and, when requested, the full
ordered event list. -/
structure Snapshot where
  sender_id : String
  slots : List (String × JValue)
  latest_action : Option String
  turn_count : Nat
  events : Option (List Event)
deriving DecidableEq, Repr

/-- `tracker.current_state(should_include_events)`: the snapshot of the fold
of the event log, with the event list included exactly when requested. -/
def Tracker.current_state (t : Tracker) (should_include_events : Bool) :
    Snapshot :=
  let s := t.events.foldl DialogueState.applyEvent DialogueState.empty
  ⟨t.sender_id, s.slots, s.latest_action, s.turn_count,
    if should_include_events then some t.events else none⟩

/-- Modelled from the spec: the Tracker Store, a keyed repository mapping
conversation id to tracker (the TrackerStore class is not in the examined
sources). -/
structure TrackerStore where
  trackers : List (String × Tracker)
deriving DecidableEq, Repr

/-- Store or overwrite the tracker persisted under `cid`. -/
def storePut (ts : TrackerStore) (cid : String) (t : Tracker) : TrackerStore :=
  ⟨(cid, t) :: assocDel ts.trackers cid⟩

/-- The tracker persisted under `cid`, if any. -/
def storeGet (ts : TrackerStore) (cid : String) : Option Tracker :=
  assocGet ts.trackers cid

/-- Modelled from the spec: `get_or_create_tracker` returns the existing
tracker for the id if present, otherwise creates and persists a new empty
tracker. -/
def TrackerStore.get_or_create_tracker (ts : TrackerStore) (cid : String) :
    Tracker × TrackerStore :=
  match storeGet ts cid with
  | some t => (t, ts)
  | none => (Tracker.new cid, storePut ts cid (Tracker.new cid))

/-- Modelled from the spec: `create_tracker` (`create_fresh`) unconditionally
creates a new empty tracker; any existing persisted state for the id is only
replaced on the next `save`. -/
def TrackerStore.create_tracker (_ts : TrackerStore) (cid : String) : Tracker :=
  Tracker.new cid

/-- Modelled from the spec: `save` durably persists the tracker keyed by its
conversation id, overwriting any prior persisted version for that id; it is
the only operation that changes durable state. -/
def TrackerStore.save (ts : TrackerStore) (t : Tracker) : TrackerStore :=
  storePut ts t.sender_id t

/-- The abstract operations a handler performs, recorded in source order so
that pipeline-ordering claims can be stated. -/
inductive Op where
  | deserialize
  | construct (kind : JValue)
  | fetchTracker (cid : String)
  | freshTracker (cid : String)
  | applyEvent (e : Event)
  | saveTracker (cid : String)
  | handleMessage (message : JValue) (cid : String)
  | respond
deriving DecidableEq, Repr

/-- A request body as delivered to `json.loads`: either malformed (the call
raises) or already-parsed content. -/
inductive Wire (α : Type) where
  | malformed
  | parsed (a : α)
deriving DecidableEq, Repr

/-- `json.loads(request.content.read() ...)`: fails on a malformed body. -/
def json_loads {α : Type} : Wire α → Except CoreError α
  | .malformed => .error .jsonError
  | .parsed a => .ok a

/-- Decidable equality for `Except`, used to evaluate concrete runs. -/
instance {ε α : Type} [DecidableEq ε] [DecidableEq α] :
    DecidableEq (Except ε α) := fun a b =>
  match a, b with
  | .error e, .error e' =>
    if h : e = e' then .isTrue (by rw [h]) else .isFalse (by simp [h])
  | .error _, .ok _ => .isFalse (by simp)
  | .ok _, .error _ => .isFalse (by simp)
  | .ok v, .ok v' =>
    if h : v = v' then .isTrue (by rw [h]) else .isFalse (by simp [h])

/-- Result of `convert_obj_2_tracker_events`: the caller's mapping list after
in-place mutation, the constructed events (or the raised error), and the
construction actions attempted in order. -/
structure ConvertResult where
  mutated : List Mapping
  result : Except CoreError (List Event)
  trace : List Op
deriving DecidableEq, Repr

/-- `convert_obj_2_tracker_events(serialized_events, domain)` from the
source: for each mapping, read the `"event"` key; if it is absent or `None`
skip the mapping, otherwise delete the key in place and construct the event
from the kind and the remaining keys.  A construction failure propagates,
leaving the remaining mappings untouched. -/
def convert_obj_2_tracker_events (serialized_events : List Mapping)
    (domain : Domain) : ConvertResult :=
  match serialized_events with
  | [] => ⟨[], .ok [], []⟩
  | e :: rest =>
    match mget e "event" with
    | none =>
      let r := convert_obj_2_tracker_events rest domain
      ⟨e :: r.mutated, r.result, r.trace⟩
    | some etype =>
      if etype = JValue.null then
        let r := convert_obj_2_tracker_events rest domain
        ⟨e :: r.mutated, r.result, r.trace⟩
      else
        let params := mdel e "event"
        match Event.from_parameters etype params domain with
        | .error err => ⟨params :: rest, .error err, [.construct etype]⟩
        | .ok ev =>
          let r := convert_obj_2_tracker_events rest domain
          ⟨params :: r.mutated, r.result.map (fun es => ev :: es),
            .construct etype :: r.trace⟩

/-- The agent the server wraps.  Its domain is consulted by event
construction; `start_message_handling` (out of the core's scope) is an
external collaborator represented as a function that may fail. -/
structure Agent where
  domain : Domain
  handle_message : JValue → String → Except CoreError String

/-- A serialized HTTP response body. -/
inductive RespBody where
  | snapshot (s : Snapshot)
  | errorBody (msg : String)
  | handled (response : String)
deriving DecidableEq, Repr

/-- Status code and body of a completed response. -/
structure HttpResponse where
  status : Nat
  body : RespBody
deriving DecidableEq, Repr

/-- Outcome of one handler invocation: the response (`Except.error` models
an exception propagating out of the handler, surfaced to the caller by the
HTTP framework), the tracker store afterwards, and the operation trace. -/
structure HandlerOutcome where
  response : Except CoreError HttpResponse
  store : TrackerStore
  trace : List Op
deriving Repr

/-- Render an error as the `{"error": ...}` body text of the source's
`except` branch. -/
def errorToMessage : CoreError → String
  | .unknownEventKind _ => "Unknown event kind"
  | .invalidEventParams k => "Invalid parameters for event " ++ k
  | .jsonError => "Invalid json"
  | .handlingError m => m

/-- `RasaCoreServer.append_events` (POST `/conversations/<cid>/tracker/events`)
from the source: deserialize the payload, construct the events, fetch or
create the tracker, apply each event in order, save, and respond with the
tracker's current state. -/
def RasaCoreServer.append_events (agent : Agent) (store : TrackerStore)
    (cid : String) (payload : Wire (List Mapping)) : HandlerOutcome :=
  match json_loads payload with
  | .error err => ⟨.error err, store, [.deserialize]⟩
  | .ok request_params =>
    let c := convert_obj_2_tracker_events request_params agent.domain
    match c.result with
    | .error err => ⟨.error err, store, .deserialize :: c.trace⟩
    | .ok events =>
      let tracker := (store.get_or_create_tracker cid).1
      let store1 := (store.get_or_create_tracker cid).2
      let tracker2 := events.foldl Tracker.update tracker
      ⟨.ok ⟨200, .snapshot (tracker2.current_state false)⟩,
        store1.save tracker2,
        .deserialize :: c.trace ++
          (.fetchTracker cid :: events.map Op.applyEvent ++
            [.saveTracker cid, .respond])⟩

/-- `RasaCoreServer.update_tracker` (PUT `/conversations/<cid>/tracker`) from
the source: deserialize, construct the events, create a fresh tracker for the
id, apply each event in order, save (overriding any existing tracker with the
same id), and respond with the tracker's state including its events. -/
def RasaCoreServer.update_tracker (agent : Agent) (store : TrackerStore)
    (cid : String) (payload : Wire (List Mapping)) : HandlerOutcome :=
  match json_loads payload with
  | .error err => ⟨.error err, store, [.deserialize]⟩
  | .ok request_params =>
    let c := convert_obj_2_tracker_events request_params agent.domain
    match c.result with
    | .error err => ⟨.error err, store, .deserialize :: c.trace⟩
    | .ok events =>
      let tracker := store.create_tracker cid
      let tracker2 := events.foldl Tracker.update tracker
      ⟨.ok ⟨200, .snapshot (tracker2.current_state true)⟩,
        store.save tracker2,
        .deserialize :: c.trace ++
          (.freshTracker cid :: events.map Op.applyEvent ++
            [.saveTracker cid, .respond])⟩

/-- `RasaCoreServer.retrieve_tracker` (GET `/conversations/<cid>/tracker`)
from the source: fetch or create the tracker and respond with its current
state, events included (`should_include_events=True`); no save. -/
def RasaCoreServer.retrieve_tracker (store : TrackerStore) (cid : String) :
    HandlerOutcome :=
  let tracker := (store.get_or_create_tracker cid).1
  let store1 := (store.get_or_create_tracker cid).2
  ⟨.ok ⟨200, .snapshot (tracker.current_state true)⟩, store1,
    [.fetchTracker cid, .respond]⟩

/-- The `try`/`except` tail of `RasaCoreServer.parse`:
`agent.start_message_handling(message, cid)` with exceptions caught and
returned as a 500 response. -/
def parseHandleMessage (agent : Agent) (store : TrackerStore) (cid : String)
    (message : JValue) : HandlerOutcome :=
  match agent.handle_message message cid with
  | .ok response =>
    ⟨.ok ⟨200, .handled response⟩, store,
      [.deserialize, .handleMessage message cid, .respond]⟩
  | .error e =>
    ⟨.ok ⟨500, .errorBody (errorToMessage e)⟩, store,
      [.deserialize, .handleMessage message cid, .respond]⟩

/-- `RasaCoreServer.parse` (`/conversations/<cid>/parse`) from the source:
use the `"query"` parameter as the message if present, else `"q"`, else
respond 404 with an error body; then hand the message to the agent, catching
exceptions as a 500 response. -/
def RasaCoreServer.parse (agent : Agent) (store : TrackerStore) (cid : String)
    (payload : Wire Mapping) : HandlerOutcome :=
  match json_loads payload with
  | .error err => ⟨.error err, store, [.deserialize]⟩
  | .ok request_params =>
    match mget request_params "query" with
    | some message => parseHandleMessage agent store cid message
    | none =>
      match mget request_params "q" with
      | some message => parseHandleMessage agent store cid message
      | none =>
        ⟨.ok ⟨404, .errorBody "Invalid parse parameter specified"⟩, store,
          [.deserialize, .respond]⟩

/-- Whether a serialized event mapping carries a present, non-`None`
`"event"` key — exactly the mappings the conversion loop does not skip. -/
def hasEventKey (e : Mapping) : Bool :=
  match mget e "event" with
  | some v => v != JValue.null
  | none => false

/-- A small concrete domain, used to evaluate the development on closed
inputs. -/
def testDomain : Domain := ⟨["my_slot"], ["utter_greet"]⟩

/-- A concrete agent over `testDomain` whose message handling always
succeeds. -/
def testAgent : Agent := ⟨testDomain, fun _ _ => .ok "ok"⟩

/-- A concrete agent over `testDomain` whose message handling always
raises. -/
def failingAgent : Agent := ⟨testDomain, fun _ _ => .error (.handlingError "boom")⟩

/-- The empty tracker store. -/
def emptyStore : TrackerStore := ⟨[]⟩

/-- A serialized mapping whose kind tag is not a statically known kind. -/
def unknownMapping : Mapping := [("event", JValue.str "bogus")]

/-- A well-formed serialized `set_slot` mapping over `testDomain`. -/
def slotMapping : Mapping :=
  [("event", JValue.str "set_slot"), ("name", JValue.str "my_slot"),
   ("value", JValue.num 5)]

/-- A well-formed serialized `action_executed` mapping over `testDomain`. -/
def actionMapping : Mapping :=
  [("event", JValue.str "action_executed"),
   ("action_name", JValue.str "utter_greet")]

/-! ## Helper lemmas -/

/-- Folding `Tracker.update` over a list appends the whole list, in order,
to the event log. -/
theorem foldl_update_events (t : Tracker) (es : List Event) :
    es.foldl Tracker.update t = ⟨t.sender_id, t.events ++ es⟩ := by
  induction es generalizing t with
  | nil => simp [Tracker.update]
  | cons e rest ih =>
    simp only [List.foldl_cons, ih, Tracker.update]
    simp

/-- A kind tag that is not statically known is rejected by construction with
`UnknownEventKind`. -/
theorem from_parameters_unknown (v : JValue) (p : Mapping) (d : Domain)
    (h : isKnownKind v = false) :
    Event.from_parameters v p d = .error (.unknownEventKind v) := by
  cases v with
  | str s =>
    simp only [isKnownKind, Bool.or_eq_false_iff, decide_eq_false_iff_not] at h
    obtain ⟨⟨⟨h1, h2⟩, h3⟩, h4⟩ := h
    simp [Event.from_parameters, h1, h2, h3, h4]
  | null => simp [Event.from_parameters]
  | num n => simp [Event.from_parameters]
  | boolean b => simp [Event.from_parameters]

/-- Every action recorded by `convert_obj_2_tracker_events` is a
construction attempt. -/
theorem convert_trace_constructs (b : List Mapping) (d : Domain) :
    ∀ a ∈ (convert_obj_2_tracker_events b d).trace, ∃ k, a = Op.construct k := by
  induction b with
  | nil => simp [convert_obj_2_tracker_events]
  | cons e rest ih =>
    intro a ha
    cases hv : mget e "event" with
    | none =>
      simp only [convert_obj_2_tracker_events, hv] at ha
      exact ih a ha
    | some v =>
      by_cases hnull : v = JValue.null
      · simp only [convert_obj_2_tracker_events, hv, hnull, if_pos] at ha
        exact ih a ha
      · simp only [convert_obj_2_tracker_events, hv, if_neg hnull] at ha
        cases hfp : Event.from_parameters v (mdel e "event") d with
        | error err =>
          simp only [hfp, List.mem_singleton] at ha
          exact ⟨_, ha⟩
        | ok ev =>
          simp only [hfp, List.mem_cons] at ha
          rcases ha with ha | ha
          · exact ⟨_, ha⟩
          · exact ih a ha

/-- If some mapping of the batch carries a present, non-`None` kind tag whose
construction fails, the whole conversion fails (the failure is never
silently dropped). -/
theorem convert_error_of_member (b : List Mapping) (d : Domain)
    (e : Mapping) (v : JValue) (hmem : e ∈ b)
    (hget : mget e "event" = some v) (hnn : v ≠ JValue.null)
    (hfail : ∀ ev, Event.from_parameters v (mdel e "event") d ≠ .ok ev) :
    ∃ err, (convert_obj_2_tracker_events b d).result = .error err := by
  induction b with
  | nil => cases hmem
  | cons a rest ih =>
    rcases List.mem_cons.mp hmem with rfl | hmem'
    · simp only [convert_obj_2_tracker_events, hget, if_neg hnn]
      cases hfp : Event.from_parameters v (mdel e "event") d with
      | error err => exact ⟨err, by simp [hfp]⟩
      | ok ev => exact absurd hfp (hfail ev)
    · obtain ⟨err, herr⟩ := ih hmem'
      cases hv : mget a "event" with
      | none =>
        simp only [convert_obj_2_tracker_events, hv]
        exact ⟨err, herr⟩
      | some v' =>
        by_cases hnull : v' = JValue.null
        · simp only [convert_obj_2_tracker_events, hv, hnull, if_pos]
          exact ⟨err, herr⟩
        · simp only [convert_obj_2_tracker_events, hv, if_neg hnull]
          cases hfp : Event.from_parameters v' (mdel a "event") d with
          | error err' => exact ⟨err', rfl⟩
          | ok ev => exact ⟨err, by simp [herr, Except.map]⟩

/-- Successful conversion distributes over concatenation of batches: the
events of the earlier mappings precede, in order, the events of the later
ones. -/
theorem convert_result_append (d : Domain) (xs ys : List Mapping)
    (es1 es2 : List Event)
    (h1 : (convert_obj_2_tracker_events xs d).result = .ok es1)
    (h2 : (convert_obj_2_tracker_events ys d).result = .ok es2) :
    (convert_obj_2_tracker_events (xs ++ ys) d).result = .ok (es1 ++ es2) := by
  induction xs generalizing es1 with
  | nil =>
    simp only [convert_obj_2_tracker_events] at h1
    cases h1
    simpa using h2
  | cons a rest ih =>
    cases hv : mget a "event" with
    | none =>
      simp only [convert_obj_2_tracker_events, hv] at h1 ⊢
      exact ih es1 h1
    | some v =>
      by_cases hnull : v = JValue.null
      · simp only [convert_obj_2_tracker_events, hv, hnull, if_pos] at h1 ⊢
        exact ih es1 h1
      · simp only [convert_obj_2_tracker_events, hv, if_neg hnull] at h1 ⊢
        cases hfp : Event.from_parameters v (mdel a "event") d with
        | error err => simp [hfp] at h1
        | ok ev =>
          simp only [hfp] at h1 ⊢
          cases hrest : (convert_obj_2_tracker_events rest d).result with
          | error err => simp [hrest, Except.map] at h1
          | ok es1' =>
            simp only [hrest, Except.map] at h1
            cases h1
            simp [ih es1' hrest, Except.map]

/-- C9 (amended): `convert_obj_2_tracker_events` mutates its input — in a
conversion in which every construction succeeds, every mapping whose
`"event"` key is present and non-`None` has that key deleted from the
caller's mapping in place and its remaining keys become the construction
parameters of its event, while a mapping whose `"event"` key is absent or
`None` is left unchanged and contributes no deserialized event to the
result.  The unconditional form of the claim is false: when a construction
fails partway, the loop aborts and later mappings keep their `"event"`
keys (see the counterexample below). -/
theorem C9_convert_mutates_input (d : Domain) (b : List Mapping)
    (es : List Event)
    (h : (convert_obj_2_tracker_events b d).result = .ok es) :
    (convert_obj_2_tracker_events b d).mutated
      = b.map (fun e => if hasEventKey e then mdel e "event" else e)
    ∧ List.Forall₂
        (fun (e : Mapping) (ev : Event) => ∃ v, mget e "event" = some v ∧
          v ≠ JValue.null ∧ Event.from_parameters v (mdel e "event") d = .ok ev)
        (b.filter hasEventKey) es := by
  induction b generalizing es with
  | nil =>
    simp only [convert_obj_2_tracker_events] at h ⊢
    cases h
    simp
  | cons e rest ih =>
    cases hv : mget e "event" with
    | none =>
      have hkey : hasEventKey e = false := by simp [hasEventKey, hv]
      simp only [convert_obj_2_tracker_events, hv] at h ⊢
      obtain ⟨hm, hf⟩ := ih es h
      refine ⟨?_, ?_⟩
      · simp [hm, hkey]
      · simpa [hkey] using hf
    | some v =>
      by_cases hnull : v = JValue.null
      · have hkey : hasEventKey e = false := by simp [hasEventKey, hv, hnull]
        simp only [convert_obj_2_tracker_events, hv, hnull, if_pos] at h ⊢
        obtain ⟨hm, hf⟩ := ih es h
        refine ⟨?_, ?_⟩
        · simp [hm, hkey]
        · simpa [hkey] using hf
      · have hkey : hasEventKey e = true := by
          simp [hasEventKey, hv, bne_iff_ne, hnull]
        simp only [convert_obj_2_tracker_events, hv, if_neg hnull] at h ⊢
        cases hfp : Event.from_parameters v (mdel e "event") d with
        | error err => simp [hfp] at h
        | ok ev =>
          simp only [hfp] at h ⊢
          cases hrest : (convert_obj_2_tracker_events rest d).result with
          | error err => simp [hrest, Except.map] at h
          | ok es' =>
            simp only [hrest, Except.map] at h
            cases h
            obtain ⟨hm, hf⟩ := ih es' hrest
            refine ⟨?_, ?_⟩
            · simp [hm, hkey]
            · simp only [List.filter_cons, hkey, if_pos]
              exact List.Forall₂.cons ⟨v, hv, hnull, hfp⟩ hf

/-- In a trace that splits into a region free of event applications followed
by a region free of construction attempts, every construction index precedes
every application index. -/
theorem constructs_precede_applies (xs ys : List Op)
    (hx : ∀ ev, Op.applyEvent ev ∉ xs) (hy : ∀ k, Op.construct k ∉ ys) :
    ∀ (i j : Nat) (k : JValue) (ev : Event),
      (xs ++ ys)[i]? = some (Op.construct k) →
      (xs ++ ys)[j]? = some (Op.applyEvent ev) → i < j := by
  intro i j k ev hi hj
  have hilt : i < xs.length := by
    by_contra hle
    push_neg at hle
    rw [List.getElem?_append_right hle] at hi
    exact hy k (List.getElem?_mem hi)
  have hjge : xs.length ≤ j := by
    by_contra hlt
    push_neg at hlt
    rw [List.getElem?_append_left hlt] at hj
    exact hx ev (List.getElem?_mem hj)
  exact lt_of_lt_of_le hilt hjge

/-- No event application is ever recorded by the conversion step. -/
theorem applyEvent_not_mem_convert_trace (b : List Mapping) (d : Domain)
    (ev : Event) : Op.applyEvent ev ∉ (convert_obj_2_tracker_events b d).trace := by
  intro h
  obtain ⟨k, hk⟩ := convert_trace_constructs b d _ h
  cases hk

/-- No save is ever recorded by the conversion step. -/
theorem saveTracker_not_mem_convert_trace (b : List Mapping) (d : Domain)
    (c : String) : Op.saveTracker c ∉ (convert_obj_2_tracker_events b d).trace := by
  intro h
  obtain ⟨k, hk⟩ := convert_trace_constructs b d _ h
  cases hk

/-- Saving stores the tracker under its id, replacing any prior entry. -/
theorem storeGet_storePut_self (ts : TrackerStore) (cid : String)
    (t : Tracker) : storeGet (storePut ts cid t) cid = some t := by
  simp [storeGet, storePut, assocGet]

/-! ## Claim theorems -/

/-- C1: if any mapping of a submitted batch carries a present, non-`None`
kind tag that is not a statically known kind, event construction fails with
`UnknownEventKind` rather than silently dropping the mapping, the whole
batch conversion fails, and the event-accepting endpoint leaves the tracker
store unchanged, surfaces an error, and applies no event to any tracker. -/
theorem C1_unknown_event_kind_rejected
    (agent : Agent) (store : TrackerStore) (cid : String)
    (batch : List Mapping) (e : Mapping) (v : JValue)
    (hmem : e ∈ batch) (hget : mget e "event" = some v)
    (hnn : v ≠ JValue.null) (hunk : isKnownKind v = false) :
    Event.from_parameters v (mdel e "event") agent.domain
        = .error (.unknownEventKind v)
    ∧ (∃ err,
        (convert_obj_2_tracker_events batch agent.domain).result = .error err)
    ∧ (RasaCoreServer.append_events agent store cid (.parsed batch)).store
        = store
    ∧ (∃ err,
        (RasaCoreServer.append_events agent store cid (.parsed batch)).response
          = .error err)
    ∧ ∀ ev, Op.applyEvent ev ∉
        (RasaCoreServer.append_events agent store cid (.parsed batch)).trace := by
  have hfp := from_parameters_unknown v (mdel e "event") agent.domain hunk
  obtain ⟨err, herr⟩ := convert_error_of_member batch agent.domain e v hmem
    hget hnn (fun ev hcontra => by rw [hfp] at hcontra; cases hcontra)
  refine ⟨hfp, ⟨err, herr⟩, ?_, ?_, ?_⟩
  · simp [RasaCoreServer.append_events, json_loads, herr]
  · exact ⟨err, by simp [RasaCoreServer.append_events, json_loads, herr]⟩
  · intro ev hmem'
    simp only [RasaCoreServer.append_events, json_loads, herr,
      List.mem_cons] at hmem'
    rcases hmem' with hmem' | hmem'
    · cases hmem'
    · exact applyEvent_not_mem_convert_trace batch agent.domain ev hmem'

/-- Witness for C1: a one-element batch with the unknown kind `"bogus"`. -/
theorem C1_unknown_event_kind_rejected_witness :
    unknownMapping ∈ [unknownMapping]
    ∧ mget unknownMapping "event" = some (JValue.str "bogus")
    ∧ JValue.str "bogus" ≠ JValue.null
    ∧ isKnownKind (JValue.str "bogus") = false
    ∧ (Event.from_parameters (JValue.str "bogus") (mdel unknownMapping "event")
          testAgent.domain = .error (.unknownEventKind (JValue.str "bogus"))
       ∧ (∃ err, (convert_obj_2_tracker_events [unknownMapping]
            testAgent.domain).result = .error err)
       ∧ (RasaCoreServer.append_events testAgent emptyStore "c1"
            (.parsed [unknownMapping])).store = emptyStore
       ∧ (∃ err, (RasaCoreServer.append_events testAgent emptyStore "c1"
            (.parsed [unknownMapping])).response = .error err)
       ∧ ∀ ev, Op.applyEvent ev ∉
           (RasaCoreServer.append_events testAgent emptyStore "c1"
             (.parsed [unknownMapping])).trace) :=
  ⟨by decide, by decide, by decide, by decide,
   C1_unknown_event_kind_rejected testAgent emptyStore "c1" [unknownMapping]
     unknownMapping (JValue.str "bogus") (by decide) (by decide) (by decide)
     (by decide)⟩

/-- C2: for a batch split into an earlier and a later part, the constructed
events of the earlier part precede those of the later part, the endpoint's
trace applies exactly those events in that order, and the saved tracker's
log is the prior log extended by the events in submission order. -/
theorem C2_events_applied_in_order
    (agent : Agent) (store : TrackerStore) (cid : String)
    (xs ys : List Mapping) (es1 es2 : List Event)
    (h1 : (convert_obj_2_tracker_events xs agent.domain).result = .ok es1)
    (h2 : (convert_obj_2_tracker_events ys agent.domain).result = .ok es2) :
    (convert_obj_2_tracker_events (xs ++ ys) agent.domain).result
        = .ok (es1 ++ es2)
    ∧ (RasaCoreServer.append_events agent store cid (.parsed (xs ++ ys))).trace
        = Op.deserialize ::
            (convert_obj_2_tracker_events (xs ++ ys) agent.domain).trace
          ++ (Op.fetchTracker cid :: (es1 ++ es2).map Op.applyEvent
              ++ [Op.saveTracker cid, Op.respond])
    ∧ (RasaCoreServer.append_events agent store cid (.parsed (xs ++ ys))).store
        = ((store.get_or_create_tracker cid).2).save
            ⟨(store.get_or_create_tracker cid).1.sender_id,
             (store.get_or_create_tracker cid).1.events ++ (es1 ++ es2)⟩ := by
  have hc := convert_result_append agent.domain xs ys es1 es2 h1 h2
  refine ⟨hc, ?_, ?_⟩
  · simp [RasaCoreServer.append_events, json_loads, hc]
  · simp [RasaCoreServer.append_events, json_loads, hc, foldl_update_events]

/-- Witness for C2: a slot-set mapping followed by an action mapping. -/
theorem C2_events_applied_in_order_witness :
    (convert_obj_2_tracker_events [slotMapping] testAgent.domain).result
        = .ok [Event.slotSet "my_slot" (JValue.num 5)]
    ∧ (convert_obj_2_tracker_events [actionMapping] testAgent.domain).result
        = .ok [Event.actionExecuted "utter_greet"]
    ∧ ((convert_obj_2_tracker_events ([slotMapping] ++ [actionMapping])
          testAgent.domain).result
        = .ok ([Event.slotSet "my_slot" (JValue.num 5)]
            ++ [Event.actionExecuted "utter_greet"])
       ∧ (RasaCoreServer.append_events testAgent emptyStore "c1"
            (.parsed ([slotMapping] ++ [actionMapping]))).trace
          = Op.deserialize ::
              (convert_obj_2_tracker_events ([slotMapping] ++ [actionMapping])
                testAgent.domain).trace
            ++ (Op.fetchTracker "c1"
                :: ([Event.slotSet "my_slot" (JValue.num 5)]
                    ++ [Event.actionExecuted "utter_greet"]).map Op.applyEvent
                ++ [Op.saveTracker "c1", Op.respond])
       ∧ (RasaCoreServer.append_events testAgent emptyStore "c1"
            (.parsed ([slotMapping] ++ [actionMapping]))).store
          = ((emptyStore.get_or_create_tracker "c1").2).save
              ⟨(emptyStore.get_or_create_tracker "c1").1.sender_id,
               (emptyStore.get_or_create_tracker "c1").1.events
                 ++ ([Event.slotSet "my_slot" (JValue.num 5)]
                     ++ [Event.actionExecuted "utter_greet"])⟩) :=
  ⟨by decide, by decide,
   C2_events_applied_in_order testAgent emptyStore "c1" [slotMapping]
     [actionMapping] [Event.slotSet "my_slot" (JValue.num 5)]
     [Event.actionExecuted "utter_greet"] (by decide) (by decide)⟩

/-- C3: a PUT of an event batch builds, from a fresh empty tracker for the
id — regardless of any existing tracker or persisted history — the tracker
holding exactly the batch's events in order, saves it (replacing any prior
persisted state for that id), responds with its serialized state, and save
is the only commit point of the handler. -/
theorem C3_put_replaces_history
    (agent : Agent) (store : TrackerStore) (cid : String)
    (batch : List Mapping) (es : List Event)
    (h : (convert_obj_2_tracker_events batch agent.domain).result = .ok es) :
    (RasaCoreServer.update_tracker agent store cid (.parsed batch)).store
        = store.save ⟨cid, es⟩
    ∧ storeGet
        (RasaCoreServer.update_tracker agent store cid (.parsed batch)).store
        cid = some ⟨cid, es⟩
    ∧ (RasaCoreServer.update_tracker agent store cid (.parsed batch)).response
        = .ok ⟨200, .snapshot (Tracker.current_state ⟨cid, es⟩ true)⟩
    ∧ ((RasaCoreServer.update_tracker agent store cid
          (.parsed batch)).trace).count (Op.saveTracker cid) = 1 := by
  have hupd : RasaCoreServer.update_tracker agent store cid (.parsed batch)
      = ⟨.ok ⟨200, .snapshot (Tracker.current_state ⟨cid, es⟩ true)⟩,
         store.save ⟨cid, es⟩,
         Op.deserialize ::
             (convert_obj_2_tracker_events batch agent.domain).trace
           ++ (Op.freshTracker cid :: es.map Op.applyEvent
               ++ [Op.saveTracker cid, Op.respond])⟩ := by
    simp [RasaCoreServer.update_tracker, json_loads, h, foldl_update_events,
      TrackerStore.create_tracker, Tracker.new]
  refine ⟨by rw [hupd], ?_, by rw [hupd], ?_⟩
  · rw [hupd]
    exact storeGet_storePut_self store cid ⟨cid, es⟩
  · rw [hupd]
    simp only [List.count_cons, List.count_append]
    have hzero : ((convert_obj_2_tracker_events batch
        agent.domain).trace).count (Op.saveTracker cid) = 0 :=
      List.count_eq_zero.mpr
        (saveTracker_not_mem_convert_trace batch agent.domain cid)
    have happ : ((es.map Op.applyEvent).count (Op.saveTracker cid)) = 0 :=
      List.count_eq_zero.mpr (by
        intro hmem
        obtain ⟨ev, _, hev⟩ := List.mem_map.mp hmem
        cases hev)
    simp [hzero, happ, List.count_cons]

/-- Witness for C3: a PUT over a store already holding history for the id. -/
theorem C3_put_replaces_history_witness :
    (convert_obj_2_tracker_events [slotMapping] testAgent.domain).result
        = .ok [Event.slotSet "my_slot" (JValue.num 5)]
    ∧ ((RasaCoreServer.update_tracker testAgent
          ⟨[("c1", ⟨"c1", [Event.restarted]⟩)]⟩ "c1"
          (.parsed [slotMapping])).store
        = TrackerStore.save ⟨[("c1", ⟨"c1", [Event.restarted]⟩)]⟩
            ⟨"c1", [Event.slotSet "my_slot" (JValue.num 5)]⟩
       ∧ storeGet (RasaCoreServer.update_tracker testAgent
            ⟨[("c1", ⟨"c1", [Event.restarted]⟩)]⟩ "c1"
            (.parsed [slotMapping])).store "c1"
          = some ⟨"c1", [Event.slotSet "my_slot" (JValue.num 5)]⟩
       ∧ (RasaCoreServer.update_tracker testAgent
            ⟨[("c1", ⟨"c1", [Event.restarted]⟩)]⟩ "c1"
            (.parsed [slotMapping])).response
          = .ok ⟨200, .snapshot (Tracker.current_state
              ⟨"c1", [Event.slotSet "my_slot" (JValue.num 5)]⟩ true)⟩
       ∧ ((RasaCoreServer.update_tracker testAgent
            ⟨[("c1", ⟨"c1", [Event.restarted]⟩)]⟩ "c1"
            (.parsed [slotMapping])).trace).count (Op.saveTracker "c1") = 1) :=
  ⟨by decide,
   C3_put_replaces_history testAgent ⟨[("c1", ⟨"c1", [Event.restarted]⟩)]⟩
     "c1" [slotMapping] [Event.slotSet "my_slot" (JValue.num 5)] (by decide)⟩

/-- C4: a POST of an event batch performs the pipeline in order —
deserialize, construct the events, fetch or create the id's tracker from
the store, apply each event to it, persist via save, and return the
serialized current state of that tracker. -/
theorem C4_post_pipeline
    (agent : Agent) (store : TrackerStore) (cid : String)
    (batch : List Mapping) (es : List Event)
    (h : (convert_obj_2_tracker_events batch agent.domain).result = .ok es) :
    RasaCoreServer.append_events agent store cid (.parsed batch) =
      ⟨.ok ⟨200, .snapshot ((es.foldl Tracker.update
          (store.get_or_create_tracker cid).1).current_state false)⟩,
       ((store.get_or_create_tracker cid).2).save
          (es.foldl Tracker.update (store.get_or_create_tracker cid).1),
       Op.deserialize ::
           (convert_obj_2_tracker_events batch agent.domain).trace
         ++ (Op.fetchTracker cid :: es.map Op.applyEvent
             ++ [Op.saveTracker cid, Op.respond])⟩ := by
  simp [RasaCoreServer.append_events, json_loads, h]

/-- Witness for C4: a two-event batch against the empty store. -/
theorem C4_post_pipeline_witness :
    (convert_obj_2_tracker_events [slotMapping, actionMapping]
        testAgent.domain).result
      = .ok [Event.slotSet "my_slot" (JValue.num 5),
             Event.actionExecuted "utter_greet"]
    ∧ RasaCoreServer.append_events testAgent emptyStore "c1"
        (.parsed [slotMapping, actionMapping]) =
      ⟨.ok ⟨200, .snapshot (([Event.slotSet "my_slot" (JValue.num 5),
            Event.actionExecuted "utter_greet"].foldl Tracker.update
          (emptyStore.get_or_create_tracker "c1").1).current_state false)⟩,
       ((emptyStore.get_or_create_tracker "c1").2).save
          ([Event.slotSet "my_slot" (JValue.num 5),
            Event.actionExecuted "utter_greet"].foldl Tracker.update
            (emptyStore.get_or_create_tracker "c1").1),
       Op.deserialize ::
           (convert_obj_2_tracker_events [slotMapping, actionMapping]
             testAgent.domain).trace
         ++ (Op.fetchTracker "c1"
             :: [Event.slotSet "my_slot" (JValue.num 5),
                 Event.actionExecuted "utter_greet"].map Op.applyEvent
             ++ [Op.saveTracker "c1", Op.respond])⟩ :=
  ⟨by decide,
   C4_post_pipeline testAgent emptyStore "c1" [slotMapping, actionMapping]
     [Event.slotSet "my_slot" (JValue.num 5),
      Event.actionExecuted "utter_greet"] (by decide)⟩

/-- C5: in both the POST events handler and the PUT tracker handler, every
construction attempt precedes every tracker fetch-or-apply in the trace,
and if construction of any event of the batch fails, the error is surfaced
to the caller, the store is untouched and no event is applied. -/
theorem C5_construct_then_apply
    (agent : Agent) (store : TrackerStore) (cid : String)
    (batch : List Mapping) :
    ((∃ err, (convert_obj_2_tracker_events batch agent.domain).result
        = .error err) →
      (RasaCoreServer.append_events agent store cid (.parsed batch)).store
          = store
      ∧ (∃ err, (RasaCoreServer.append_events agent store cid
          (.parsed batch)).response = .error err)
      ∧ (∀ ev, Op.applyEvent ev ∉
          (RasaCoreServer.append_events agent store cid (.parsed batch)).trace)
      ∧ (RasaCoreServer.update_tracker agent store cid (.parsed batch)).store
          = store
      ∧ (∃ err, (RasaCoreServer.update_tracker agent store cid
          (.parsed batch)).response = .error err)
      ∧ (∀ ev, Op.applyEvent ev ∉
          (RasaCoreServer.update_tracker agent store cid
            (.parsed batch)).trace))
    ∧ (∀ (i j : Nat) (k : JValue) (ev : Event),
        (RasaCoreServer.append_events agent store cid
          (.parsed batch)).trace[i]? = some (Op.construct k) →
        (RasaCoreServer.append_events agent store cid
          (.parsed batch)).trace[j]? = some (Op.applyEvent ev) → i < j)
    ∧ (∀ (i j : Nat) (k : JValue) (ev : Event),
        (RasaCoreServer.update_tracker agent store cid
          (.parsed batch)).trace[i]? = some (Op.construct k) →
        (RasaCoreServer.update_tracker agent store cid
          (.parsed batch)).trace[j]? = some (Op.applyEvent ev) → i < j) := by
  have hx : ∀ ev, Op.applyEvent ev ∉
      Op.deserialize :: (convert_obj_2_tracker_events batch agent.domain).trace := by
    intro ev hmem
    rcases List.mem_cons.mp hmem with hmem | hmem
    · cases hmem
    · exact applyEvent_not_mem_convert_trace batch agent.domain ev hmem
  cases hc : (convert_obj_2_tracker_events batch agent.domain).result with
  | error err =>
    have happ : (RasaCoreServer.append_events agent store cid
        (.parsed batch)).trace = Op.deserialize ::
          (convert_obj_2_tracker_events batch agent.domain).trace := by
      simp [RasaCoreServer.append_events, json_loads, hc]
    have hupd : (RasaCoreServer.update_tracker agent store cid
        (.parsed batch)).trace = Op.deserialize ::
          (convert_obj_2_tracker_events batch agent.domain).trace := by
      simp [RasaCoreServer.update_tracker, json_loads, hc]
    refine ⟨fun _ => ⟨?_, ⟨err, ?_⟩, ?_, ?_, ⟨err, ?_⟩, ?_⟩, ?_, ?_⟩
    · simp [RasaCoreServer.append_events, json_loads, hc]
    · simp [RasaCoreServer.append_events, json_loads, hc]
    · rw [happ]; exact hx
    · simp [RasaCoreServer.update_tracker, json_loads, hc]
    · simp [RasaCoreServer.update_tracker, json_loads, hc]
    · rw [hupd]; exact hx
    · intro i j k ev _ hj
      rw [happ] at hj
      exact absurd (List.getElem?_mem hj) (hx ev)
    · intro i j k ev _ hj
      rw [hupd] at hj
      exact absurd (List.getElem?_mem hj) (hx ev)
  | ok es =>
    have hy : ∀ (op : Op), (∀ k, op ≠ Op.construct k) →
        ∀ k, Op.construct k ∉
          op :: (es.map Op.applyEvent ++ [Op.saveTracker cid, Op.respond]) := by
      intro op hop k hmem
      rcases List.mem_cons.mp hmem with hmem | hmem
      · exact hop k hmem.symm
      · rcases List.mem_append.mp hmem with hmem | hmem
        · obtain ⟨ev, _, hev⟩ := List.mem_map.mp hmem
          cases hev
        · rcases List.mem_cons.mp hmem with hmem | hmem
          · cases hmem
          · rcases List.mem_cons.mp hmem with hmem | hmem
            · cases hmem
            · cases hmem
    have happ : (RasaCoreServer.append_events agent store cid
        (.parsed batch)).trace =
          (Op.deserialize ::
            (convert_obj_2_tracker_events batch agent.domain).trace) ++
          (Op.fetchTracker cid ::
            (es.map Op.applyEvent ++ [Op.saveTracker cid, Op.respond])) := by
      simp [RasaCoreServer.append_events, json_loads, hc]
    have hupd : (RasaCoreServer.update_tracker agent store cid
        (.parsed batch)).trace =
          (Op.deserialize ::
            (convert_obj_2_tracker_events batch agent.domain).trace) ++
          (Op.freshTracker cid ::
            (es.map Op.applyEvent ++ [Op.saveTracker cid, Op.respond])) := by
      simp [RasaCoreServer.update_tracker, json_loads, hc]
    refine ⟨fun hcontra => ?_, ?_, ?_⟩
    · obtain ⟨err, herr⟩ := hcontra
      exact absurd herr (by simp)
    · intro i j k ev hi hj
      rw [happ] at hi hj
      exact constructs_precede_applies _ _ hx
        (hy (Op.fetchTracker cid) (fun _ h => by cases h)) i j k ev hi hj
    · intro i j k ev hi hj
      rw [hupd] at hi hj
      exact constructs_precede_applies _ _ hx
        (hy (Op.freshTracker cid) (fun _ h => by cases h)) i j k ev hi hj

/-- Witness for C5: the failure branch at a batch with an unknown kind, and
the ordering branch evaluated at two concrete indices of a mixed batch. -/
theorem C5_construct_then_apply_witness :
    ((RasaCoreServer.append_events testAgent emptyStore "c1"
        (.parsed [unknownMapping])).store = emptyStore
     ∧ (∀ ev, Op.applyEvent ev ∉
         (RasaCoreServer.update_tracker testAgent emptyStore "c1"
           (.parsed [unknownMapping])).trace))
    ∧ (1 : Nat) < 3 := by
  have h := C5_construct_then_apply testAgent emptyStore "c1" [unknownMapping]
  have hfail := h.1 ⟨.unknownEventKind (JValue.str "bogus"), by decide⟩
  refine ⟨⟨hfail.1, hfail.2.2.2.2.2⟩, ?_⟩
  have h2 := C5_construct_then_apply testAgent emptyStore "c1" [slotMapping]
  exact h2.2.1 1 3 (JValue.str "set_slot")
    (Event.slotSet "my_slot" (JValue.num 5)) (by decide) (by decide)

/-- C6: a GET of the tracker responds with the snapshot of the id's tracker
obtained via get-or-create, with the full ordered event list included
(events are always requested), and the read records no save. -/
theorem C6_get_returns_full_snapshot (store : TrackerStore) (cid : String) :
    RasaCoreServer.retrieve_tracker store cid =
      ⟨.ok ⟨200,
          .snapshot ((store.get_or_create_tracker cid).1.current_state true)⟩,
       (store.get_or_create_tracker cid).2,
       [Op.fetchTracker cid, Op.respond]⟩
    ∧ ((store.get_or_create_tracker cid).1.current_state true).events
        = some (store.get_or_create_tracker cid).1.events
    ∧ ∀ c, Op.saveTracker c ∉
        (RasaCoreServer.retrieve_tracker store cid).trace := by
  refine ⟨rfl, by simp [Tracker.current_state], ?_⟩
  intro c hmem
  simp [RasaCoreServer.retrieve_tracker] at hmem

/-- C7: an operation failure is scoped to the failing request — a handler
that surfaces an error leaves the tracker store exactly as it was (hence no
other conversation's state changes), the read endpoint cannot fail, the
parse endpoint never mutates the store, and an exception raised while
handling a message is caught and returned to that caller as a 500 body. -/
theorem C7_failures_scoped_to_request
    (agent : Agent) (store : TrackerStore) (cid : String)
    (payload : Wire (List Mapping)) (pp : Wire Mapping) :
    ((∃ err, (RasaCoreServer.append_events agent store cid payload).response
        = .error err) →
      (RasaCoreServer.append_events agent store cid payload).store = store)
    ∧ ((∃ err, (RasaCoreServer.update_tracker agent store cid payload).response
        = .error err) →
      (RasaCoreServer.update_tracker agent store cid payload).store = store)
    ∧ (∃ r, (RasaCoreServer.retrieve_tracker store cid).response = .ok r)
    ∧ (RasaCoreServer.parse agent store cid pp).store = store
    ∧ (∀ (params : Mapping) (v : JValue) (e : CoreError),
        pp = .parsed params → mget params "query" = some v →
        agent.handle_message v cid = .error e →
        (RasaCoreServer.parse agent store cid pp).response
          = .ok ⟨500, .errorBody (errorToMessage e)⟩) := by
  refine ⟨?_, ?_, ⟨_, rfl⟩, ?_, ?_⟩
  · cases payload with
    | malformed => intro _; rfl
    | parsed b =>
      cases hc : (convert_obj_2_tracker_events b agent.domain).result with
      | error err => intro _; simp [RasaCoreServer.append_events, json_loads, hc]
      | ok es =>
        intro hcontra
        obtain ⟨err, herr⟩ := hcontra
        simp [RasaCoreServer.append_events, json_loads, hc] at herr
  · cases payload with
    | malformed => intro _; rfl
    | parsed b =>
      cases hc : (convert_obj_2_tracker_events b agent.domain).result with
      | error err => intro _; simp [RasaCoreServer.update_tracker, json_loads, hc]
      | ok es =>
        intro hcontra
        obtain ⟨err, herr⟩ := hcontra
        simp [RasaCoreServer.update_tracker, json_loads, hc] at herr
  · cases pp with
    | malformed => rfl
    | parsed params =>
      cases hq : mget params "query" with
      | some v =>
        simp only [RasaCoreServer.parse, json_loads, hq, parseHandleMessage]
        cases agent.handle_message v cid <;> rfl
      | none =>
        cases hq2 : mget params "q" with
        | some v =>
          simp only [RasaCoreServer.parse, json_loads, hq, hq2,
            parseHandleMessage]
          cases agent.handle_message v cid <;> rfl
        | none => simp [RasaCoreServer.parse, json_loads, hq, hq2]
  · intro params v e hpp hq he
    subst hpp
    simp [RasaCoreServer.parse, json_loads, hq, parseHandleMessage, he]

/-- Witness for C7: a malformed POST against the empty store, and a parse
request whose message handling raises. -/
theorem C7_failures_scoped_to_request_witness :
    (RasaCoreServer.append_events testAgent emptyStore "c1" .malformed).store
        = emptyStore
    ∧ (RasaCoreServer.parse failingAgent emptyStore "c1"
        (.parsed [("query", JValue.str "hi")])).response
      = .ok ⟨500, .errorBody (errorToMessage (.handlingError "boom"))⟩ :=
  ⟨(C7_failures_scoped_to_request testAgent emptyStore "c1" .malformed
      .malformed).1 ⟨.jsonError, rfl⟩,
   (C7_failures_scoped_to_request failingAgent emptyStore "c1" .malformed
      (.parsed [("query", JValue.str "hi")])).2.2.2.2
     [("query", JValue.str "hi")] (JValue.str "hi") (.handlingError "boom")
     rfl (by decide) rfl⟩

/-- Witness for C9: a successful batch mixing a constructible mapping, a
mapping with no `"event"` key, and a mapping whose `"event"` value is
`None`. -/
theorem C9_convert_mutates_input_witness :
    (convert_obj_2_tracker_events
        [slotMapping, [], [("event", JValue.null), ("x", JValue.num 1)]]
        testDomain).result = .ok [Event.slotSet "my_slot" (JValue.num 5)]
    ∧ ((convert_obj_2_tracker_events
          [slotMapping, [], [("event", JValue.null), ("x", JValue.num 1)]]
          testDomain).mutated
        = [slotMapping, [], [("event", JValue.null), ("x", JValue.num 1)]].map
            (fun e => if hasEventKey e then mdel e "event" else e)
       ∧ List.Forall₂
          (fun (e : Mapping) (ev : Event) => ∃ v, mget e "event" = some v ∧
            v ≠ JValue.null ∧
            Event.from_parameters v (mdel e "event") testDomain = .ok ev)
          ([slotMapping, [],
            [("event", JValue.null), ("x", JValue.num 1)]].filter hasEventKey)
          [Event.slotSet "my_slot" (JValue.num 5)]) :=
  ⟨by decide,
   C9_convert_mutates_input testDomain
     [slotMapping, [], [("event", JValue.null), ("x", JValue.num 1)]]
     [Event.slotSet "my_slot" (JValue.num 5)] (by decide)⟩

/-- C10: in the parse handler, a present `"query"` parameter is used as the
message even when `"q"` is also present; when neither is present the
handler responds 404 with the error body and performs no message handling. -/
theorem C10_parse_query_precedence
    (agent : Agent) (store : TrackerStore) (cid : String) (params : Mapping) :
    (∀ v, mget params "query" = some v →
      RasaCoreServer.parse agent store cid (.parsed params)
          = parseHandleMessage agent store cid v
      ∧ Op.handleMessage v cid ∈
          (RasaCoreServer.parse agent store cid (.parsed params)).trace)
    ∧ (mget params "query" = none → mget params "q" = none →
      RasaCoreServer.parse agent store cid (.parsed params)
          = ⟨.ok ⟨404, .errorBody "Invalid parse parameter specified"⟩, store,
             [Op.deserialize, Op.respond]⟩
      ∧ ∀ m c, Op.handleMessage m c ∉
          (RasaCoreServer.parse agent store cid (.parsed params)).trace) := by
  constructor
  · intro v hq
    have hp : RasaCoreServer.parse agent store cid (.parsed params)
        = parseHandleMessage agent store cid v := by
      simp [RasaCoreServer.parse, json_loads, hq]
    refine ⟨hp, ?_⟩
    rw [hp]
    unfold parseHandleMessage
    cases agent.handle_message v cid <;> simp
  · intro hq hq2
    have hp : RasaCoreServer.parse agent store cid (.parsed params)
        = ⟨.ok ⟨404, .errorBody "Invalid parse parameter specified"⟩, store,
           [Op.deserialize, Op.respond]⟩ := by
      simp [RasaCoreServer.parse, json_loads, hq, hq2]
    refine ⟨hp, ?_⟩
    intro m c hmem
    rw [hp] at hmem
    simp at hmem

/-- Witness for C10: a request carrying both `"query"` and `"q"`, and a
request carrying neither. -/
theorem C10_parse_query_precedence_witness :
    (RasaCoreServer.parse testAgent emptyStore "c1"
        (.parsed [("query", JValue.str "hi"), ("q", JValue.str "other")]))
      = parseHandleMessage testAgent emptyStore "c1" (JValue.str "hi")
    ∧ RasaCoreServer.parse testAgent emptyStore "c1"
        (.parsed [("x", JValue.num 0)])
      = ⟨.ok ⟨404, .errorBody "Invalid parse parameter specified"⟩,
         emptyStore, [Op.deserialize, Op.respond]⟩ :=
  ⟨((C10_parse_query_precedence testAgent emptyStore "c1"
      [("query", JValue.str "hi"), ("q", JValue.str "other")]).1
      (JValue.str "hi") (by decide)).1,
   ((C10_parse_query_precedence testAgent emptyStore "c1"
      [("x", JValue.num 0)]).2 (by decide) (by decide)).1⟩

/-- Counterexample to C9 as originally stated for every batch: on the batch
`[unknownMapping, slotMapping]` construction of the first mapping fails, the
loop aborts, and the second mapping — whose `"event"` key is present and
non-`None` — does not have that key deleted from the caller's mapping: the
mutated batch differs from the everywhere-deleted form the claim demands. -/
theorem C9_convert_mutates_input_counterexample :
    (convert_obj_2_tracker_events [unknownMapping, slotMapping]
        testDomain).mutated = [[], slotMapping]
    ∧ mget slotMapping "event" = some (JValue.str "set_slot")
    ∧ JValue.str "set_slot" ≠ JValue.null
    ∧ (convert_obj_2_tracker_events [unknownMapping, slotMapping]
        testDomain).mutated
      ≠ [unknownMapping, slotMapping].map
          (fun e => if hasEventKey e then mdel e "event" else e) := by
  refine ⟨by decide, by decide, by decide, by decide⟩
